import Mathlib

/-!
Verification of the one-time session-code handoff mechanism and redirect
builders of the `auth-callback` repository.

The embedding models:
* the session-code store (`global.sessionCodeStore`, a JS `Map`) as an
  association list from codes to token entries;
* `src/api/retrieve-session.js` (`take`) as `retrieveSession`;
* the create-secure-session handler in `src/api/verify-email-phase1.js`
  (`put`) as `createSecureSession`, with the random bytes and the current
  time passed in as parameters (the JS reads them from `crypto.randomBytes`
  and `Date.now()`);
* `crypto.randomBytes(32).toString('hex')` as `bytesToHex`;
* `isMobileAppRequest`, `redirectToWeb`, `redirectToMobile` from
  `src/api/verify-email-phase1.js` and `redirectToFrontend`,
  `sanitizeParam` from `src/api/verify-email-new.js`, with
  `URLSearchParams` serialization modelled by `formEncodeParams`
  (application/x-www-form-urlencoded).

Times are milliseconds as `Nat`; JS string `length` is modelled by
`String.length` (the strings involved are ASCII).
-/

/-- A stored value of `sessionCodeStore`: the object stored by the
create-secure-session handler (`sessionCodeStore.set(session_code, {...})`).
`expires_in`, `token_type` and `type` come from the request body and may be
absent (`undefined` in JS), hence `Option`. -/
structure TokenEntry where
  access_token : String
  refresh_token : String
  expires_in : Option Nat
  token_type : Option String
  type : Option String
  expires_at : Nat
  deriving Repr, DecidableEq

/-- The session-code store: a JS `Map` from code strings to token entries,
modelled as an association list with unique keys maintained by `storeSet`. -/
abbrev Store := List (String × TokenEntry)

/-- `sessionCodeStore.get(code)`. -/
def storeGet : Store → String → Option TokenEntry
  | [], _ => none
  | p :: t, k => if p.1 == k then some p.2 else storeGet t k

/-- `sessionCodeStore.delete(code)`. -/
def storeDelete (s : Store) (k : String) : Store :=
  s.filter (fun p => p.1 != k)

/-- `sessionCodeStore.set(code, entry)`. -/
def storeSet (s : Store) (k : String) (v : TokenEntry) : Store :=
  (k, v) :: storeDelete s k

/-- JS truthiness of the guard `tokens.expires_at && tokens.expires_at < now`
used both by `cleanupExpiredCodes` and by the expiry branch of `take`
(`expires_at` is a number; `0` is falsy). -/
def entryExpired (e : TokenEntry) (now : Nat) : Bool :=
  e.expires_at != 0 && e.expires_at < now

/-- `cleanupExpiredCodes()` from the create-secure-session handler:
removes every entry whose `expires_at` is truthy and `< now`. -/
def cleanupExpiredCodes (s : Store) (now : Nat) : Store :=
  s.filter (fun p => !entryExpired p.2 now)

/-- Outcome of the `take` handler (`src/api/retrieve-session.js`):
400 invalid format, 404 not found, 410 expired, or 200 with exactly the
five fields the handler returns. -/
inductive TakeResult where
  | validationError : TakeResult
  | notFound : TakeResult
  | expired : TakeResult
  | ok (access_token refresh_token : String) (expires_in : Option Nat)
      (token_type : Option String) (type : Option String) : TakeResult
  deriving Repr, DecidableEq

/-- The `take` handler of `src/api/retrieve-session.js`: validates the code
format (`!session_code || session_code.length !== 64`), looks the code up,
deletes-and-410s when expired, otherwise deletes and returns the bundle. -/
def retrieveSession (session_code : String) (now : Nat) (store : Store) :
    TakeResult × Store :=
  if session_code == "" || session_code.length != 64 then
    (.validationError, store)
  else
    match storeGet store session_code with
    | none => (.notFound, store)
    | some tokens =>
      if entryExpired tokens now then
        (.expired, storeDelete store session_code)
      else
        (.ok tokens.access_token tokens.refresh_token tokens.expires_in
          tokens.token_type tokens.type,
         storeDelete store session_code)

theorem storeGet_storeSet_self (s : Store) (k : String) (v : TokenEntry) :
    storeGet (storeSet s k v) k = some v := by
  simp [storeGet, storeSet]

theorem storeGet_storeDelete_self (s : Store) (k : String) :
    storeGet (storeDelete s k) k = none := by
  induction s with
  | nil => rfl
  | cons p t ih =>
    by_cases h : p.1 = k
    · simpa [storeDelete, List.filter_cons, h] using ih
    · have hne : (p.1 != k) = true := by simp [bne_iff_ne]; exact h
      have hbeq : (p.1 == k) = false := by simp [h]
      simp only [storeDelete, List.filter_cons, hne, if_pos]
      rw [storeGet, hbeq]
      simp only [Bool.false_eq_true, if_false]
      simpa [storeDelete] using ih

theorem storeGet_cleanup (s : Store) (now : Nat) (k : String) (v : TokenEntry)
    (hget : storeGet s k = some v) (hkeep : entryExpired v now = false) :
    storeGet (cleanupExpiredCodes s now) k = some v := by
  induction s with
  | nil => simp [storeGet] at hget
  | cons p t ih =>
    rw [storeGet] at hget
    by_cases h : p.1 = k
    · have hkp : (p.1 == k) = true := by simp [h]
      rw [hkp] at hget
      simp only [if_pos] at hget
      have hv : p.2 = v := by simpa using hget
      have hkept : (!entryExpired p.2 now) = true := by
        rw [hv, hkeep]; rfl
      simp only [cleanupExpiredCodes, List.filter_cons, hkept, if_pos]
      rw [storeGet, hkp]
      simp [hv]
    · have hkp : (p.1 == k) = false := by simp [h]
      rw [hkp] at hget
      simp only [Bool.false_eq_true, if_false] at hget
      have ih' := ih hget
      simp only [cleanupExpiredCodes] at ih' ⊢
      by_cases hk : entryExpired p.2 now
      · simp [List.filter_cons, hk, ih']
      · simp only [List.filter_cons, hk]
        simp only [Bool.not_false, if_pos]
        rw [storeGet, hkp]
        simpa using ih'

/-- One hex digit of `Buffer.toString('hex')` (lowercase). -/
def hexDigit (n : Nat) : Char :=
  if n < 10 then Char.ofNat (48 + n) else Char.ofNat (87 + n)

/-- Lowercase hex encoding of one byte: two digits, high nibble first. -/
def byteToHex (b : Fin 256) : List Char :=
  [hexDigit (b.val / 16), hexDigit (b.val % 16)]

/-- `Buffer.toString('hex')`: the lowercase hex encoding of a byte buffer,
modelling `crypto.randomBytes(32).toString('hex')` when applied to a
32-byte list. -/
def bytesToHex (bs : List (Fin 256)) : String :=
  String.mk (bs.flatMap byteToHex)

/-- The lowercase hex charset of `Buffer.toString('hex')`. -/
def isHexChar (c : Char) : Bool :=
  c ∈ "0123456789abcdef".toList

/-- JS falsiness of a possibly-absent string field (`!x`):
true when the field is `undefined` or the empty string. -/
def jsFalsy : Option String → Bool
  | none => true
  | some s => s == ""

/-- Body of the create-secure-session request:
`const { access_token, refresh_token, expires_in, token_type, type } = req.body`.
Every field may be absent. -/
structure SessionRequest where
  access_token : Option String
  refresh_token : Option String
  expires_in : Option Nat
  token_type : Option String
  type : Option String
  deriving Repr, DecidableEq

/-- Outcome of the `put` handler: 400 with the handler's error message, or
200 with `{session_code, expires_at}`. -/
inductive PutResult where
  | validationError (msg : String) : PutResult
  | ok (session_code : String) (expires_at : Nat) : PutResult
  deriving Repr, DecidableEq

/-- The create-secure-session handler of `src/api/verify-email-phase1.js`
(`put`). The generated random code (in JS
`crypto.randomBytes(32).toString('hex')`) and `Date.now()` are passed in as
`session_code` and `now`. Validates the tokens, stores the bundle with
`expires_at = now + 5*60*1000`, then runs `cleanupExpiredCodes()`. -/
def createSecureSession (body : SessionRequest) (session_code : String)
    (now : Nat) (store : Store) : PutResult × Store :=
  if jsFalsy body.access_token || jsFalsy body.refresh_token then
    (.validationError "Missing required tokens", store)
  else if (body.access_token.getD "").length < 50 then
    (.validationError "Invalid access token format", store)
  else if (body.refresh_token.getD "").length < 8 then
    (.validationError "Invalid refresh token format", store)
  else
    let expires_at := now + 5 * 60 * 1000
    let entry : TokenEntry :=
      { access_token := body.access_token.getD ""
        refresh_token := body.refresh_token.getD ""
        expires_in := body.expires_in
        token_type := body.token_type
        type := body.type
        expires_at := expires_at }
    let store1 := storeSet store session_code entry
    let store2 := cleanupExpiredCodes store1 now
    (.ok session_code expires_at, store2)

theorem bytesToHex_length (bs : List (Fin 256)) :
    (bytesToHex bs).length = 2 * bs.length := by
  induction bs with
  | nil => rfl
  | cons b t ih =>
    simp only [bytesToHex, String.length, List.flatMap_cons] at ih ⊢
    simp only [List.length_append, byteToHex, List.length_cons, List.length_nil]
    omega

theorem hexDigit_mem (n : Nat) (h : n < 16) :
    isHexChar (hexDigit n) = true := by
  interval_cases n <;> decide

theorem bytesToHex_charset (bs : List (Fin 256)) :
    ∀ c ∈ (bytesToHex bs).toList, isHexChar c = true := by
  intro c hc
  simp only [bytesToHex, String.toList, String.data] at hc
  rw [List.mem_flatMap] at hc
  obtain ⟨b, _, hcb⟩ := hc
  simp only [byteToHex, List.mem_cons, List.mem_singleton] at hcb
  rcases hcb with h | h | h
  · exact h ▸ hexDigit_mem _ (Nat.div_lt_of_lt_mul (by omega))
  · exact h ▸ hexDigit_mem _ (Nat.mod_lt _ (by omega))
  · exact absurd h (by simp)

/-- Uppercase hex digit, used by percent-encoding. -/
def hexDigitUpper (n : Nat) : Char :=
  if n < 10 then Char.ofNat (48 + n) else Char.ofNat (55 + n)

/-- UTF-8 encoding of a Unicode code point, as byte values. -/
def utf8Bytes (n : Nat) : List Nat :=
  if n < 128 then [n]
  else if n < 2048 then [192 + n / 64, 128 + n % 64]
  else if n < 65536 then [224 + n / 4096, 128 + n / 64 % 64, 128 + n % 64]
  else [240 + n / 262144, 128 + n / 4096 % 64, 128 + n / 64 % 64, 128 + n % 64]

/-- Percent-encoding of one byte (`%XX`, uppercase hex). -/
def percentByte (b : Nat) : List Char :=
  ['%', hexDigitUpper (b / 16 % 16), hexDigitUpper (b % 16)]

/-- `application/x-www-form-urlencoded` serialization of one character, as
`URLSearchParams.toString()` does it: `*-._` and alphanumerics unescaped,
space as `+`, everything else percent-encoded UTF-8. -/
def formEncodeChar (c : Char) : List Char :=
  if c.isAlphanum || c = '*' || c = '-' || c = '.' || c = '_' then [c]
  else if c = ' ' then ['+']
  else (utf8Bytes c.toNat).flatMap percentByte

/-- `application/x-www-form-urlencoded` serialization of one string. -/
def formEncode (s : String) : String :=
  String.mk (s.toList.flatMap formEncodeChar)

/-- `URLSearchParams.toString()` over an ordered list of key/value pairs. -/
def formEncodeParams (ps : List (String × String)) : String :=
  String.intercalate "&" (ps.map (fun p => formEncode p.1 ++ "=" ++ formEncode p.2))

/-- `sanitizeParam` from `src/api/verify-email-new.js`: strips
`<>"'&\n\r\t` and caps the length at 200. -/
def sanitizeParam (s : String) : String :=
  String.mk ((s.toList.filter
    (fun c => !(c = '<' || c = '>' || c = '"' || c = '\'' || c = '&' ||
                c = '\n' || c = '\r' || c = '\t'))).take 200)

/-- The destructured argument of `redirectToFrontend` in
`src/api/verify-email-new.js`; absent fields are `undefined`. -/
structure FrontendParams where
  type : Option String
  error : Option String
  errorCode : Option String
  originalError : Option String
  session_code : Option String
  access_token : Option String
  refresh_token : Option String
  expires_in : Option String
  token_type : Option String
  flow : Option String
  deriving Repr, DecidableEq

/-- The query parameters `redirectToFrontend` sets, in source order; a
field is skipped when falsy (`if (x) queryParams.set(...)`). Tokens and the
session code are deliberately not sanitized by the source. -/
def frontendQueryParams (p : FrontendParams) : List (String × String) :=
  (match p.type with
   | some t => if t == "" then [] else [("type", sanitizeParam t)]
   | none => []) ++
  (match p.error with
   | some e => if e == "" then [] else [("error", sanitizeParam e)]
   | none => []) ++
  (match p.errorCode with
   | some e => if e == "" then [] else [("error_code", sanitizeParam e)]
   | none => []) ++
  (match p.access_token with
   | some a => if a == "" then [] else [("access_token", a)]
   | none => []) ++
  (match p.refresh_token with
   | some r => if r == "" then [] else [("refresh_token", r)]
   | none => []) ++
  (match p.expires_in with
   | some e => if e == "" then [] else [("expires_in", e)]
   | none => []) ++
  (match p.token_type with
   | some t => if t == "" then [] else [("token_type", sanitizeParam t)]
   | none => []) ++
  (match p.flow with
   | some f => if f == "" then [] else [("flow", sanitizeParam f)]
   | none => []) ++
  (match p.session_code with
   | some s => if s == "" then [] else [("session_code", s)]
   | none => [])

/-- `redirectToFrontend` from `src/api/verify-email-new.js`: errors and
unauthorized outcomes go in the query string (`/?...`), everything else in
the hash fragment (`/#...`); URLs longer than 2048 fall back to a generic
error query redirect. Returns the redirect target. -/
def redirectToFrontend (p : FrontendParams) : String :=
  let qs := formEncodeParams (frontendQueryParams p)
  let redirectUrl :=
    if p.type == some "error" || p.type == some "unauthorized" then
      "/?" ++ qs
    else
      "/#" ++ qs
  if redirectUrl.length > 2048 then "/?error=invalid_request&type=error"
  else redirectUrl

/-- `data.session` as used by the phase-1 redirect helpers
(`src/api/verify-email-phase1.js`): `expires_at` and `token_type` may be
absent. -/
structure SessionData where
  access_token : String
  refresh_token : String
  expires_at : Option Nat
  token_type : Option String
  deriving Repr, DecidableEq

/-- The six query parameters shared by `redirectToWeb` and
`redirectToMobile`: `expires_at?.toString() || ''` and
`token_type || 'bearer'`. -/
def phase1Params (sd : SessionData) : List (String × String) :=
  [("access_token", sd.access_token),
   ("refresh_token", sd.refresh_token),
   ("expires_at", match sd.expires_at with
                  | some e => toString e
                  | none => ""),
   ("token_type", match sd.token_type with
                  | some t => if t == "" then "bearer" else t
                  | none => "bearer"),
   ("verified", "true"),
   ("flow", "phase1_simplified")]

/-- `redirectToWeb` from `src/api/verify-email-phase1.js`: the browser
redirect target `${frontendUrl}/?${params.toString()}`. -/
def redirectToWeb (sd : SessionData) (frontendUrl : String) : String :=
  frontendUrl ++ "/?" ++ formEncodeParams (phase1Params sd)

/-- `redirectToMobile` from `src/api/verify-email-phase1.js`: the deep-link
target `manito://auth/verified?${params.toString()}`. -/
def redirectToMobile (sd : SessionData) : String :=
  "manito://auth/verified?" ++ formEncodeParams (phase1Params sd)

/-- JS `String.prototype.includes` on char lists: some tail of the string
has the needle as a prefix. -/
def listContainsSub (sub l : List Char) : Bool :=
  l.tails.any (fun t => sub.isPrefixOf t)

/-- JS `s.includes(sub)`. -/
def jsIncludes (s sub : String) : Bool :=
  listContainsSub sub.toList s.toList

/-- `isMobileAppRequest` from `src/api/verify-email-phase1.js`: falsy
user-agent is not mobile; otherwise any of four substrings marks the
request as mobile. -/
def isMobileAppRequest (userAgent : Option String) : Bool :=
  match userAgent with
  | none => false
  | some ua =>
    if ua == "" then false
    else jsIncludes ua "Expo" || jsIncludes ua "ReactNative" ||
         jsIncludes ua "manito" || jsIncludes ua "Mobile"

/-- The platform-specific redirect of the phase-1 handler success path
(`src/api/verify-email-phase1.js`): `req.headers['user-agent'] || ''`, then
mobile deep link or web redirect. -/
def phase1SuccessRedirect (userAgent : Option String) (sd : SessionData)
    (frontendUrl : String) : String :=
  let ua := userAgent.getD ""
  if isMobileAppRequest (some ua) then redirectToMobile sd
  else redirectToWeb sd frontendUrl

theorem string_beq_empty_false {s : String} (h : s.length ≠ 0) :
    (s == "") = false := by
  apply beq_eq_false_iff_ne.mpr
  intro he
  exact h (by simp [he])

theorem retrieveSession_formatOk (code : String) (hlen : code.length = 64) :
    (code == "" || code.length != 64) = false := by
  have h1 : (code == "") = false := string_beq_empty_false (by omega)
  have h2 : (code.length != 64) = false := by simp [hlen]
  simp [h1, h2]

theorem retrieveSession_hit (code : String) (now : Nat) (store : Store)
    (e : TokenEntry) (hlen : code.length = 64)
    (hget : storeGet store code = some e)
    (hfresh : entryExpired e now = false) :
    retrieveSession code now store =
      (.ok e.access_token e.refresh_token e.expires_in e.token_type e.type,
       storeDelete store code) := by
  unfold retrieveSession
  rw [retrieveSession_formatOk code hlen]
  simp only [Bool.false_eq_true, if_false, hget, hfresh]

theorem retrieveSession_miss (code : String) (now : Nat) (store : Store)
    (hlen : code.length = 64) (hget : storeGet store code = none) :
    retrieveSession code now store = (.notFound, store) := by
  unfold retrieveSession
  rw [retrieveSession_formatOk code hlen]
  simp only [Bool.false_eq_true, if_false, hget]

theorem createSecureSession_success (body : SessionRequest)
    (code : String) (now : Nat) (store : Store) (a r : String)
    (ha : body.access_token = some a) (hr : body.refresh_token = some r)
    (hal : 50 ≤ a.length) (hrl : 8 ≤ r.length) :
    createSecureSession body code now store =
      (.ok code (now + 300000),
       cleanupExpiredCodes
         (storeSet store code
           ⟨a, r, body.expires_in, body.token_type, body.type, now + 300000⟩)
         now) := by
  have ha' : (a == "") = false := string_beq_empty_false (by omega)
  have hr' : (r == "") = false := string_beq_empty_false (by omega)
  unfold createSecureSession
  rw [ha, hr]
  simp only [jsFalsy, ha', hr', Bool.or_self, Bool.false_eq_true, if_false,
    Option.getD_some]
  rw [if_neg (by omega), if_neg (by omega)]

theorem entry_not_expired_at_creation (now : Nat) (e : TokenEntry)
    (h : e.expires_at = now + 300000) : entryExpired e now = false := by
  simp only [entryExpired, h]
  simp only [Bool.and_eq_false_iff]
  right
  simp

/-- C5: a token bundle whose `refresh_token` is missing is rejected by
the create-secure-session handler with the validation error
`Missing required tokens`, and the store is returned unchanged: no entry is
inserted (and the result carries no code). -/
theorem put_missing_refresh_rejected (body : SessionRequest)
    (code : String) (now : Nat) (store : Store)
    (h : body.refresh_token = none) :
    createSecureSession body code now store =
      (.validationError "Missing required tokens", store) := by
  unfold createSecureSession
  rw [h]
  simp [jsFalsy]

/-- Witness for C5 at a concrete bundle with `refresh_token` absent. -/
theorem put_missing_refresh_rejected_witness :
    createSecureSession ⟨some "AT", none, some 3600, some "bearer", none⟩
        "c" 17 [] =
      (.validationError "Missing required tokens", []) :=
  put_missing_refresh_rejected _ "c" 17 [] rfl

/-- C6: a code whose length is not 64 is rejected by the `take` handler
with a 400 validation error before the store is consulted; the result does
not depend on the store, and the store is returned unchanged. -/
theorem take_bad_length_rejected (code : String) (now : Nat) (store : Store)
    (h : code.length ≠ 64) :
    retrieveSession code now store = (.validationError, store) := by
  unfold retrieveSession
  have h2 : (code.length != 64) = true := by simp [h]
  simp [h2]

/-- Witness for C6 at the concrete 3-character code `abc`. -/
theorem take_bad_length_rejected_witness :
    retrieveSession "abc" 5 [] = (.validationError, []) :=
  take_bad_length_rejected "abc" 5 [] (by decide)

/-- C9: `take` never checks the charset of a 64-character code: any
64-character string absent from the store — hex or not — yields the 404
`NotFoundError`, not the 400 `ValidationError`. -/
theorem take_64_unknown_notFound (code : String) (now : Nat) (store : Store)
    (hlen : code.length = 64) (hget : storeGet store code = none) :
    retrieveSession code now store = (.notFound, store) :=
  retrieveSession_miss code now store hlen hget

/-- Witness for C9 at a 64-character code made of the non-hex
character `z`. -/
theorem take_64_unknown_notFound_witness :
    retrieveSession (String.mk (List.replicate 64 'z')) 5 [] =
      (.notFound, []) :=
  take_64_unknown_notFound _ 5 [] (by decide) rfl

/-- C7: a successful `put` stores and returns
`expires_at = now + 5 * 60 * 1000 = now + 300000` — issuance time plus
exactly five minutes. -/
theorem put_expires_at_five_minutes (body : SessionRequest)
    (code : String) (now : Nat) (store : Store) (a r : String)
    (ha : body.access_token = some a) (hr : body.refresh_token = some r)
    (hal : 50 ≤ a.length) (hrl : 8 ≤ r.length) :
    ∃ store',
      createSecureSession body code now store = (.ok code (now + 300000), store')
      ∧ storeGet store' code =
          some ⟨a, r, body.expires_in, body.token_type, body.type,
                now + 300000⟩ := by
  refine ⟨_, createSecureSession_success body code now store a r ha hr hal hrl, ?_⟩
  exact storeGet_cleanup _ now code _ (storeGet_storeSet_self store code _)
    (entry_not_expired_at_creation now _ rfl)

/-- Witness for C7 with the spec's end-to-end bundle
(`access_token = "a"*60`, `refresh_token = "b"*20`) at `now = 1000`. -/
theorem put_expires_at_five_minutes_witness :
    ∃ store',
      createSecureSession
          ⟨some (String.mk (List.replicate 60 'a')),
           some (String.mk (List.replicate 20 'b')),
           some 3600, some "bearer", some "signup"⟩
          "c" 1000 [] =
        (.ok "c" (1000 + 300000), store')
      ∧ storeGet store' "c" =
          some ⟨String.mk (List.replicate 60 'a'),
                String.mk (List.replicate 20 'b'),
                some 3600, some "bearer", some "signup", 1000 + 300000⟩ :=
  put_expires_at_five_minutes _ "c" 1000 [] _ _ rfl rfl (by decide) (by decide)

/-- C1: for a valid bundle (`access_token` length ≥ 50, `refresh_token`
length ≥ 8, as the handler's format checks require), `put` succeeds with a
64-character lowercase-hex code (32 random bytes, hex-encoded), and a
`take` with that code performed immediately afterwards returns exactly the
submitted `access_token`, `refresh_token`, `expires_in`, `token_type` and
`type`. -/
theorem put_then_take_roundtrip (body : SessionRequest) (bs : List (Fin 256))
    (now : Nat) (store : Store) (a r : String)
    (ha : body.access_token = some a) (hr : body.refresh_token = some r)
    (hal : 50 ≤ a.length) (hrl : 8 ≤ r.length) (hbs : bs.length = 32) :
    ((bytesToHex bs).length = 64
      ∧ ∀ c ∈ (bytesToHex bs).toList, isHexChar c = true)
    ∧ ∃ store',
        createSecureSession body (bytesToHex bs) now store =
          (.ok (bytesToHex bs) (now + 300000), store')
        ∧ retrieveSession (bytesToHex bs) now store' =
            (.ok a r body.expires_in body.token_type body.type,
             storeDelete store' (bytesToHex bs)) := by
  have hlen : (bytesToHex bs).length = 64 := by
    rw [bytesToHex_length, hbs]
  refine ⟨⟨hlen, bytesToHex_charset bs⟩, _,
    createSecureSession_success body _ now store a r ha hr hal hrl, ?_⟩
  have hget :
      storeGet
        (cleanupExpiredCodes
          (storeSet store (bytesToHex bs)
            ⟨a, r, body.expires_in, body.token_type, body.type, now + 300000⟩)
          now)
        (bytesToHex bs) =
      some ⟨a, r, body.expires_in, body.token_type, body.type, now + 300000⟩ :=
    storeGet_cleanup _ now _ _ (storeGet_storeSet_self store _ _)
      (entry_not_expired_at_creation now _ rfl)
  exact retrieveSession_hit _ now _ _ hlen hget
    (entry_not_expired_at_creation now _ rfl)

/-- Witness for C1 with the spec's end-to-end bundle and an all-zero
32-byte buffer at `now = 1000`. -/
theorem put_then_take_roundtrip_witness :
    ((bytesToHex (List.replicate 32 (0 : Fin 256))).length = 64
      ∧ ∀ c ∈ (bytesToHex (List.replicate 32 (0 : Fin 256))).toList,
          isHexChar c = true)
    ∧ ∃ store',
        createSecureSession
            ⟨some (String.mk (List.replicate 60 'a')),
             some (String.mk (List.replicate 20 'b')),
             some 3600, some "bearer", some "signup"⟩
            (bytesToHex (List.replicate 32 (0 : Fin 256))) 1000 [] =
          (.ok (bytesToHex (List.replicate 32 (0 : Fin 256))) (1000 + 300000),
           store')
        ∧ retrieveSession (bytesToHex (List.replicate 32 (0 : Fin 256)))
              1000 store' =
            (.ok (String.mk (List.replicate 60 'a'))
              (String.mk (List.replicate 20 'b'))
              (some 3600) (some "bearer") (some "signup"),
             storeDelete store' (bytesToHex (List.replicate 32 (0 : Fin 256)))) :=
  put_then_take_roundtrip _ _ 1000 [] _ _ rfl rfl (by decide) (by decide)
    (by decide)

/-- C2 counterexample: the claim quantifies over codes of any length, but a
code that fails format validation (here the 3-character `abc`) fails it on
the second call as well: the second `take` yields `ValidationError`,
not `NotFoundError`. -/
theorem take_twice_short_code_not_notFound :
    (retrieveSession "abc" 0 []).1 = .validationError
    ∧ (retrieveSession "abc" 0 (retrieveSession "abc" 0 []).2).1 =
        .validationError
    ∧ (retrieveSession "abc" 0 (retrieveSession "abc" 0 []).2).1 ≠
        .notFound := by
  refine ⟨rfl, rfl, ?_⟩
  decide

/-- C2 (amended): for every code of the valid length 64 and every store
state, whatever the first `take` does (success, `NotFoundError` or
`ExpiredError`), a second `take` of the same code yields `NotFoundError`. -/
theorem take_twice_second_notFound (code : String) (now now' : Nat)
    (store : Store) (hlen : code.length = 64) :
    (retrieveSession code now' (retrieveSession code now store).2).1 =
      .notFound := by
  have hfmt := retrieveSession_formatOk code hlen
  unfold retrieveSession
  rw [hfmt]
  simp only [Bool.false_eq_true, if_false]
  cases hget : storeGet store code with
  | none => simp [hget]
  | some e =>
    simp only [hget]
    by_cases hx : entryExpired e now
    · simp [hx, storeGet_storeDelete_self]
    · simp [hx, storeGet_storeDelete_self]

/-- Witness for C2 (amended): a fresh 64-character code stored at time 0,
taken twice at time 1. -/
theorem take_twice_second_notFound_witness :
    (retrieveSession (String.mk (List.replicate 64 'f')) 1
        (retrieveSession (String.mk (List.replicate 64 'f')) 1
          [(String.mk (List.replicate 64 'f'),
            ⟨"AT", "RT", none, none, none, 300000⟩)]).2).1 =
      .notFound :=
  take_twice_second_notFound _ 1 1 _ (by decide)

/-- C3: single-use invariant for a freshly stored code. Concurrency is
modelled as interleaving of atomic handler executions: the `take` handler
has no `await` between `sessionCodeStore.get` and
`sessionCodeStore.delete`, so in the single-threaded Node event loop each
`take` runs atomically and two concurrent `take` calls serialize; the two
serializations of two identical calls coincide. For a code present in the
store and not yet expired, the first serialized `take` succeeds with the
token bundle and the second observes `NotFoundError`: the two calls can
never both succeed. -/
theorem take_single_use (store : Store) (code : String) (e : TokenEntry)
    (now : Nat) (hlen : code.length = 64)
    (hget : storeGet store code = some e)
    (hfresh : e.expires_at = now + 300000) :
    retrieveSession code now store =
      (.ok e.access_token e.refresh_token e.expires_in e.token_type e.type,
       storeDelete store code)
    ∧ (retrieveSession code now (storeDelete store code)).1 = .notFound := by
  constructor
  · exact retrieveSession_hit code now store e hlen hget
      (entry_not_expired_at_creation now e hfresh)
  · rw [retrieveSession_miss code now _ hlen (storeGet_storeDelete_self store code)]

/-- Witness for C3: a store holding one fresh 64-character code at
`now = 0`. -/
theorem take_single_use_witness :
    retrieveSession (String.mk (List.replicate 64 '0')) 0
        [(String.mk (List.replicate 64 '0'),
          ⟨"AT", "RT", some 3600, some "bearer", some "signup", 300000⟩)] =
      (.ok "AT" "RT" (some 3600) (some "bearer") (some "signup"),
       storeDelete
         [(String.mk (List.replicate 64 '0'),
           ⟨"AT", "RT", some 3600, some "bearer", some "signup", 300000⟩)]
         (String.mk (List.replicate 64 '0')))
    ∧ (retrieveSession (String.mk (List.replicate 64 '0')) 0
        (storeDelete
          [(String.mk (List.replicate 64 '0'),
            ⟨"AT", "RT", some 3600, some "bearer", some "signup", 300000⟩)]
          (String.mk (List.replicate 64 '0')))).1 = .notFound :=
  take_single_use _ _ ⟨"AT", "RT", some 3600, some "bearer", some "signup",
    300000⟩ 0 (by decide) (by decide) rfl

/-- C4: a code stored at time `t₀` with the five-minute TTL
(`expires_at = t₀ + 300000`) and taken strictly later than `t₀ + 300000`
yields `ExpiredError` (410) and is deleted, so any subsequent `take` of the
same code — at any time — yields `NotFoundError`, never `ExpiredError`
again. (The `put` handler only ever stores 64-character codes, hence the
length hypothesis.) -/
theorem take_after_ttl_expired (store : Store) (code : String)
    (e : TokenEntry) (t₀ now : Nat) (hlen : code.length = 64)
    (hget : storeGet store code = some e)
    (hexp : e.expires_at = t₀ + 300000) (hlate : t₀ + 300000 < now) :
    retrieveSession code now store = (.expired, storeDelete store code)
    ∧ ∀ now', (retrieveSession code now' (storeDelete store code)).1 =
        .notFound := by
  have hx : entryExpired e now = true := by
    simp only [entryExpired, hexp]
    simp only [Bool.and_eq_true, bne_iff_ne, decide_eq_true_eq]
    omega
  constructor
  · unfold retrieveSession
    rw [retrieveSession_formatOk code hlen]
    simp only [Bool.false_eq_true, if_false, hget, hx, if_true]
  · intro now'
    rw [retrieveSession_miss code now' _ hlen (storeGet_storeDelete_self store code)]

/-- Witness for C4: a code stored at `t₀ = 0` (so `expires_at = 300000`)
taken at `now = 300001`, then again at time 7. -/
theorem take_after_ttl_expired_witness :
    retrieveSession (String.mk (List.replicate 64 '1')) 300001
        [(String.mk (List.replicate 64 '1'),
          ⟨"AT", "RT", none, none, none, 300000⟩)] =
      (.expired,
       storeDelete
         [(String.mk (List.replicate 64 '1'),
           ⟨"AT", "RT", none, none, none, 300000⟩)]
         (String.mk (List.replicate 64 '1')))
    ∧ ∀ now',
        (retrieveSession (String.mk (List.replicate 64 '1')) now'
          (storeDelete
            [(String.mk (List.replicate 64 '1'),
              ⟨"AT", "RT", none, none, none, 300000⟩)]
            (String.mk (List.replicate 64 '1')))).1 = .notFound :=
  take_after_ttl_expired _ _ _ 0 300001 (by decide) rfl rfl (by decide)

/-- C8 counterexample: `redirectToWeb` in `src/api/verify-email-phase1.js`
builds a browser redirect for a successful verification whose URL has no
fragment at all — the token payload sits in the query component. -/
theorem web_redirect_tokens_in_query :
    (redirectToWeb ⟨"A", "B", some 1000, some "bearer"⟩
        "https://auth.manito.cl").toList.contains '#' = false
    ∧ jsIncludes
        (redirectToWeb ⟨"A", "B", some 1000, some "bearer"⟩
          "https://auth.manito.cl")
        "access_token=" = true := by
  constructor
  · decide
  · decide

/-- C8 (amended): in `redirectToFrontend` (`src/api/verify-email-new.js`),
error-type and unauthorized outcomes place their parameters in the query
component and success-type payloads go in the fragment component (or, past
the 2048-character cap, a token-free generic error query redirect); but
`redirectToWeb` (`src/api/verify-email-phase1.js`) places the success token
payload of its browser redirect in the query component, never in a
fragment. -/
theorem redirect_component_placement :
    (∀ p : FrontendParams,
       p.type = some "error" ∨ p.type = some "unauthorized" →
       ∃ qs, redirectToFrontend p = "/?" ++ qs)
    ∧ (∀ p : FrontendParams, p.type = some "success" →
         (∃ qs, redirectToFrontend p = "/#" ++ qs)
         ∨ redirectToFrontend p = "/?error=invalid_request&type=error")
    ∧ (∀ (sd : SessionData) (frontendUrl : String),
         redirectToWeb sd frontendUrl =
           frontendUrl ++ "/?" ++ formEncodeParams (phase1Params sd)) := by
  refine ⟨?_, ?_, ?_⟩
  · intro p hp
    have hc : (p.type == some "error" || p.type == some "unauthorized") =
        true := by
      rcases hp with h | h <;> simp [h]
    unfold redirectToFrontend
    simp only [hc, if_true]
    by_cases hl :
        ("/?" ++ formEncodeParams (frontendQueryParams p)).length > 2048
    · rw [if_pos hl]
      exact ⟨"error=invalid_request&type=error", by decide⟩
    · rw [if_neg hl]
      exact ⟨_, rfl⟩
  · intro p hp
    have hc : (p.type == some "error" || p.type == some "unauthorized") =
        false := by simp [hp]
    unfold redirectToFrontend
    simp only [hc, Bool.false_eq_true, if_false]
    by_cases hl :
        ("/#" ++ formEncodeParams (frontendQueryParams p)).length > 2048
    · rw [if_pos hl]
      exact Or.inr rfl
    · rw [if_neg hl]
      exact Or.inl ⟨_, rfl⟩
  · intro sd frontendUrl
    rfl

/-- Witness for C8 (amended) at a concrete error outcome, a concrete
success outcome and a concrete web session redirect. -/
theorem redirect_component_placement_witness :
    (∃ qs, redirectToFrontend
        ⟨some "error", some "boom", none, none, none, none, none, none, none,
         none⟩ = "/?" ++ qs)
    ∧ ((∃ qs, redirectToFrontend
          ⟨some "success", none, none, none, none, some "AT", some "RT",
           some "3600", some "bearer", some "pkce"⟩ = "/#" ++ qs)
        ∨ redirectToFrontend
            ⟨some "success", none, none, none, none, some "AT", some "RT",
             some "3600", some "bearer", some "pkce"⟩ =
          "/?error=invalid_request&type=error")
    ∧ redirectToWeb ⟨"A", "B", none, none⟩ "https://auth.manito.cl" =
        "https://auth.manito.cl" ++ "/?" ++
          formEncodeParams (phase1Params ⟨"A", "B", none, none⟩) :=
  ⟨redirect_component_placement.1 _ (Or.inl rfl),
   redirect_component_placement.2.1 _ rfl,
   redirect_component_placement.2.2 _ _⟩

/-- C10: `isMobileAppRequest` is substring sniffing — it is true exactly
when the user-agent contains `Expo`, `ReactNative`, `manito` or `Mobile`,
and false for a missing or empty user-agent; consequently any successful
verification whose user-agent contains `Mobile` (ordinary mobile browsers
included) is redirected to the raw-token `manito://auth/verified?` deep
link rather than the web URL. -/
theorem mobile_sniffing_redirect :
    (∀ ua : String,
       isMobileAppRequest (some ua) =
         (jsIncludes ua "Expo" || jsIncludes ua "ReactNative" ||
          jsIncludes ua "manito" || jsIncludes ua "Mobile"))
    ∧ isMobileAppRequest none = false
    ∧ isMobileAppRequest (some "") = false
    ∧ (∀ (ua : String) (sd : SessionData) (frontendUrl : String),
         jsIncludes ua "Mobile" = true →
         phase1SuccessRedirect (some ua) sd frontendUrl =
           "manito://auth/verified?" ++ formEncodeParams (phase1Params sd)) := by
  refine ⟨?_, rfl, rfl, ?_⟩
  · intro ua
    by_cases h : ua = ""
    · subst h
      decide
    · have hbeq : (ua == "") = false := beq_eq_false_iff_ne.mpr h
      simp only [isMobileAppRequest, hbeq, Bool.false_eq_true, if_false]
  · intro ua sd frontendUrl hM
    have hne : ua ≠ "" := by
      intro h
      rw [h] at hM
      exact absurd hM (by decide)
    have hbeq : (ua == "") = false := beq_eq_false_iff_ne.mpr hne
    have hmob : isMobileAppRequest (some ua) = true := by
      simp only [isMobileAppRequest, hbeq, Bool.false_eq_true, if_false, hM,
        Bool.or_true]
    simp only [phase1SuccessRedirect, Option.getD_some, hmob, if_true]
    rfl

/-- Witness for C10: an iPhone Safari user-agent containing `Mobile` is
deep-linked. -/
theorem mobile_sniffing_redirect_witness :
    phase1SuccessRedirect (some "Mozilla/5.0 (iPhone) Mobile Safari")
        ⟨"A", "B", none, none⟩ "https://auth.manito.cl" =
      "manito://auth/verified?" ++
        formEncodeParams (phase1Params ⟨"A", "B", none, none⟩) :=
  mobile_sniffing_redirect.2.2.2 _ _ _ (by decide)
